import Mathlib

/-!
Verification of `src/update_ips.py`: a script that fetches a list of
preferred IP addresses from a text source, selects at most `MAX_IPS` of
them, deletes the existing DNS A records of a configured domain at the
Cloudflare API, and creates one new A record per selected IP.

The script is embedded shallowly: HTTP calls are oracles (`Oracle`),
and every function returns the list of outward HTTP/sleep events it
performs (`Event`) next to its value, so that claims about which calls
are attempted become statements about the event trace.
-/

namespace UpdateIps

/-- The constant `MAX_IPS = 5` — a literal in the source, not read from
the environment. -/
def MAX_IPS : Nat := 5

/-- The constant `retry_count = 3` inside `get_preferred_ips`. -/
def RETRY_COUNT : Nat := 3

/-- The constant `retry_delay = 10` (seconds) inside `get_preferred_ips`. -/
def RETRY_DELAY : Nat := 10

/-- A source line / an IP string, modelled as a list of characters. -/
abbrev Line := List Char

/-- The characters Python's `str.strip()` removes (ASCII whitespace). -/
def isPySpace (c : Char) : Bool :=
  c = ' ' || c = '\t' || c = '\n' || c = '\r' || c = '\x0b' || c = '\x0c'

/-- Left part of Python's `str.strip()`. -/
def lstrip (s : List Char) : List Char := s.dropWhile isPySpace

/-- Right part of Python's `str.strip()`. -/
def rstrip (s : List Char) : List Char := (s.reverse.dropWhile isPySpace).reverse

/-- Python's `str.strip()`: drop whitespace from both ends. -/
def pyStrip (s : List Char) : List Char := rstrip (lstrip s)

/-- Python's `str.split('\n')`: split at every newline, keeping empty parts
(`n` newlines give `n + 1` parts). -/
def splitNl : List Char → List (List Char)
  | [] => [[]]
  | c :: rest =>
    if c = '\n' then [] :: splitNl rest
    else
      match splitNl rest with
      | [] => [[c]]
      | l :: ls => (c :: l) :: ls

/-- Python's `line.split('#')[0]`: the text before the first `'#'`. -/
def beforeHash (s : List Char) : List Char := s.takeWhile (fun c => c ≠ '#')

/-- Python's `s.startswith('#')`. -/
def startsWithHash : List Char → Bool
  | [] => false
  | c :: _ => c = '#'

/-- The skip condition of the parse loop:
`not line.strip() or line.strip().startswith('#')`. -/
def skipLine (line : List Char) : Bool :=
  (pyStrip line).isEmpty || startsWithHash (pyStrip line)

/-- The expression `ip_part = line.split('#')[0].strip()`. -/
def ipPart (line : List Char) : List Char := pyStrip (beforeHash line)

/-- The `for line in lines` loop of `get_preferred_ips`, with accumulator
`acc` (= `preferred_ips`).  A skipped line `continue`s before the length
check; a processed line appends its non-empty `ip_part` and then breaks
as soon as `MAX_IPS` is reached. -/
def extractLoop (maxIps : Nat) : List Line → List (List Char) → List Line
  | acc, [] => acc
  | acc, line :: rest =>
    if skipLine line then
      extractLoop maxIps acc rest
    else
      let acc' := if (ipPart line).isEmpty then acc else acc ++ [ipPart line]
      if maxIps ≤ acc'.length then acc' else extractLoop maxIps acc' rest

/-- Parsing of a fetched body:
`lines = response.text.strip().split('\n')` followed by the loop. -/
def parseIps (maxIps : Nat) (body : List Char) : List Line :=
  extractLoop maxIps [] (splitNl (pyStrip body))

/-- What a single line contributes according to the spec: nothing if blank
or comment, otherwise its non-empty IP portion (text before the first
`'#'`, stripped). -/
def linePortion (line : List Char) : Option Line :=
  if skipLine line then none
  else if (ipPart line).isEmpty then none
  else some (ipPart line)

/-- The list the spec describes for claim C1: the non-empty IP portions of
the non-blank, non-comment lines of the body, in source order (with no
truncation mentioned). -/
def specIpPortions (body : List Char) : List Line :=
  (splitNl (pyStrip body)).filterMap linePortion

/-- The JSON payload a record-creation POST carries. -/
structure CreateData where
  type : String
  name : Option String
  content : Line
  ttl : Nat
  proxied : Bool
deriving DecidableEq

/-- An outward effect of the script: an HTTP request or a sleep. -/
inductive Event where
  /-- GET to the IP source URL. -/
  | fetchGet : Event
  /-- Call of `time.sleep` between fetch retries, in seconds. -/
  | sleep : Nat → Event
  /-- GET to the Cloudflare DNS-records endpoint (listing A records of the domain). -/
  | listGet : Option String → Event
  /-- DELETE of the record with the given id. -/
  | deleteReq : String → Event
  /-- POST creating a record with the given payload. -/
  | createReq : CreateData → Event
deriving DecidableEq

/-- An existing DNS record as used by `main` (only its `id` is read). -/
structure DnsRecord where
  id : String
deriving DecidableEq

/-- Outcome of `get_existing_dns_records`'s single GET:
a `requests.RequestException`, a JSON/key parse failure, or a record list. -/
inductive ListOutcome where
  | reqErr : ListOutcome
  | parseErr : ListOutcome
  | ok : List DnsRecord → ListOutcome

/-- The environment the script runs against: the outcome of each HTTP call.
`fetch n` is the `n`-th fetch attempt (`none` = `requests.RequestException`,
which includes non-2xx via `raise_for_status`); `deleteOk`/`createOk` give
the outcome of the `i`-th delete/create call. -/
structure Oracle where
  fetch : Nat → Option (List Char)
  listOutcome : ListOutcome
  deleteOk : Nat → Bool
  createOk : Nat → Bool

/-- The retry loop of `get_preferred_ips`: `attempt` is the current index of
`range(retry_count)`, `remaining` the number of iterations left.  On a
successful GET the parsed list is returned (empty or not); on an exception
the loop sleeps and retries unless this was the last attempt. -/
def goFetch (fetch : Nat → Option (List Char)) (maxIps : Nat) :
    Nat → Nat → List Event × List Line
  | _, 0 => ([], [])
  | attempt, remaining + 1 =>
    match fetch attempt with
    | some body => ([Event.fetchGet], parseIps maxIps body)
    | none =>
      if remaining = 0 then ([Event.fetchGet], [])
      else
        let r := goFetch fetch maxIps (attempt + 1) remaining
        (Event.fetchGet :: Event.sleep RETRY_DELAY :: r.1, r.2)

/-- The function `get_preferred_ips()`: the retry loop started at attempt 0,
with `retry_count = 3` iterations available. -/
def get_preferred_ips (fetch : Nat → Option (List Char)) (maxIps : Nat) :
    List Event × List Line :=
  goFetch fetch maxIps 0 RETRY_COUNT

/-- The record list `get_existing_dns_records` ends up with: errors of
either kind are logged and treated as "no records". -/
def listedRecords : ListOutcome → List DnsRecord
  | .ok rs => rs
  | _ => []

/-- The function `get_existing_dns_records()`: one GET (filtered to type A
and the domain name), returning `[]` on request or parse failure. -/
def get_existing_dns_records (domain : Option String) (outcome : ListOutcome) :
    List Event × List DnsRecord :=
  ([Event.listGet domain], listedRecords outcome)

/-- The function `delete_dns_record(record_id)`: one DELETE; returns
whether it succeeded. -/
def delete_dns_record (ok : Bool) (recordId : String) : List Event × Bool :=
  ([Event.deleteReq recordId], ok)

/-- The function `create_dns_record(ip)`: one POST with the fixed payload
`{'type': 'A', 'name': DOMAIN_NAME, 'content': ip, 'ttl': 60,
'proxied': False}`; returns whether it succeeded. -/
def create_dns_record (ok : Bool) (domain : Option String) (ip : Line) :
    List Event × Bool :=
  ([Event.createReq { type := "A", name := domain, content := ip, ttl := 60, proxied := false }],
   ok)

/-- The deletion loop of `main`: one `delete_dns_record` call per record,
its Boolean result discarded (`i` is the call index fed to the oracle). -/
def deleteAll (ok : Nat → Bool) : List DnsRecord → Nat → List Event
  | [], _ => []
  | r :: rs, i => (delete_dns_record (ok i) r.id).1 ++ deleteAll ok rs (i + 1)

/-- The creation loop of `main`: one `create_dns_record` call per IP,
counting the successful ones. -/
def createAll (ok : Nat → Bool) (domain : Option String) :
    List Line → Nat → List Event × Nat
  | [], _ => ([], 0)
  | ip :: ips, i =>
    (((create_dns_record (ok i) domain ip).1 ++ (createAll ok domain ips (i + 1)).1),
     (if (create_dns_record (ok i) domain ip).2 then 1 else 0) + (createAll ok domain ips (i + 1)).2)

/-- Python truthiness of an optional environment string:
`None` and `''` are falsy. -/
def truthy : Option String → Bool
  | none => false
  | some s => !s.isEmpty

/-- The configuration the script reads at module load. -/
structure Config where
  token : Option String
  zone : Option String
  domain : Option String
  maxIps : Nat

/-- Configuration intake: the three variables come from the process
environment (`os.environ.get`); the selection count is the literal
`MAX_IPS = 5` in the source and does not consult the environment. -/
def readConfig (env : String → Option String) : Config :=
  { token := env "CF_API_TOKEN"
    zone := env "CF_ZONE_ID"
    domain := env "CF_DOMAIN_NAME"
    maxIps := MAX_IPS }

/-- The guard `all([CF_API_TOKEN, CF_ZONE_ID, DOMAIN_NAME])` at the top of
`main`. -/
def cfgOk (cfg : Config) : Bool :=
  truthy cfg.token && truthy cfg.zone && truthy cfg.domain

/-- The function `main()`: configuration check, fetch, list, delete-all,
create-all.  Returns the full event trace and `some successCount` when the
run reaches the final report, `none` when it returns early. -/
def main (cfg : Config) (o : Oracle) : List Event × Option Nat :=
  if cfgOk cfg then
    let fetched := get_preferred_ips o.fetch cfg.maxIps
    if fetched.2.isEmpty then (fetched.1, none)
    else
      let listed := get_existing_dns_records cfg.domain o.listOutcome
      let dels := deleteAll o.deleteOk listed.2 0
      let created := createAll o.createOk cfg.domain fetched.2 0
      (fetched.1 ++ listed.1 ++ dels ++ created.1, some created.2)
  else ([], none)

/-- Recognises a record-creation POST in a trace. -/
def isCreate : Event → Bool
  | .createReq _ => true
  | _ => false

/-- Recognises a record-deletion DELETE in a trace. -/
def isDelete : Event → Bool
  | .deleteReq _ => true
  | _ => false

/-- Recognises any call to the DNS provider (list, delete or create). -/
def isCfCall : Event → Bool
  | .listGet _ => true
  | .deleteReq _ => true
  | .createReq _ => true
  | _ => false

/-! Concrete fixtures used by counterexamples and witnesses. -/

/-- A well-formed configuration (all three variables set). -/
def cfgW : Config :=
  { token := some "token", zone := some "zone", domain := some "example.com",
    maxIps := MAX_IPS }

/-- A configuration with the API token missing. -/
def cfgMissing : Config :=
  { token := none, zone := some "zone", domain := some "example.com",
    maxIps := MAX_IPS }

/-- A source body with two IP lines. -/
def bodyW : List Char := "1.2.3.4\n5.6.7.8".toList

/-- A source body with six qualifying IP lines (one more than `MAX_IPS`). -/
def bodySix : List Char :=
  "1.1.1.1\n2.2.2.2\n3.3.3.3\n4.4.4.4\n5.5.5.5\n6.6.6.6".toList

/-- A source body with only comment lines and blank lines. -/
def bodyComments : List Char := "# header\n\n# note".toList

/-- An oracle where every call succeeds: the fetch returns `bodyW`, two
records exist, and the first create call succeeds. -/
def oracleW : Oracle :=
  { fetch := fun _ => some bodyW
    listOutcome := .ok [{ id := "rec1" }, { id := "rec2" }]
    deleteOk := fun _ => true
    createOk := fun i => i == 0 }

/-- A fetch oracle where every attempt raises a request exception. -/
def fetchNone : Nat → Option (List Char) := fun _ => none

/-- A fetch oracle whose body contains no candidate IPs. -/
def fetchCommentsOnly : Nat → Option (List Char) := fun _ => some bodyComments

/-- Oracle `oracleW` with the source unreachable. -/
def oracleDown : Oracle := { oracleW with fetch := fetchNone }

/-- A delete oracle where every deletion fails. -/
def allFalse : Nat → Bool := fun _ => false

/-- The event trace of a fetch whose three attempts all fail. -/
def allFailTrace : List Event :=
  [.fetchGet, .sleep RETRY_DELAY, .fetchGet, .sleep RETRY_DELAY, .fetchGet]

/-- The payload `main cfgW oracleW` posts for the first selected IP. -/
def createDataW : CreateData :=
  { type := "A", name := some "example.com", content := "1.2.3.4".toList,
    ttl := 60, proxied := false }

end UpdateIps

namespace UpdateIps

/-! Helper lemmas shared by the claims. -/

theorem extractLoop_eq (maxIps : Nat) (lines : List (List Char)) :
    ∀ acc : List Line, acc.length < maxIps →
      extractLoop maxIps acc lines
        = acc ++ (lines.filterMap linePortion).take (maxIps - acc.length) := by
  induction lines with
  | nil => intro acc h; simp [extractLoop]
  | cons line rest ih =>
    intro acc h
    by_cases hs : skipLine line = true
    · have hp : linePortion line = none := by simp [linePortion, hs]
      simp only [List.filterMap_cons, hp]
      simpa [extractLoop, hs] using ih acc h
    · by_cases hip : (ipPart line).isEmpty = true
      · have hp : linePortion line = none := by simp [linePortion, hs, hip]
        have hnb : ¬ (maxIps ≤ acc.length) := by omega
        simp only [List.filterMap_cons, hp]
        rw [← ih acc h]
        simp [extractLoop, hs, hip, hnb]
      · have hp : linePortion line = some (ipPart line) := by simp [linePortion, hs, hip]
        by_cases hb : maxIps ≤ acc.length + 1
        · have hm : maxIps - acc.length = 1 := by omega
          simp [extractLoop, hs, hip, hb, hp, hm]
        · have hlt : (acc ++ [ipPart line]).length < maxIps := by simp; omega
          have hm : maxIps - acc.length = (maxIps - (acc.length + 1)) + 1 := by omega
          simp [extractLoop, hs, hip, hb, hp, ih _ hlt, hm, List.take_succ_cons]

theorem parseIps_eq_take (maxIps : Nat) (h : 0 < maxIps) (body : List Char) :
    parseIps maxIps body = (specIpPortions body).take maxIps := by
  have h0 : ([] : List Line).length < maxIps := by simpa using h
  simpa [parseIps, specIpPortions] using
    extractLoop_eq maxIps (splitNl (pyStrip body)) [] h0

theorem parseIps_length_le (body : List Char) :
    (parseIps MAX_IPS body).length ≤ MAX_IPS := by
  rw [parseIps_eq_take MAX_IPS (by decide) body]
  exact List.length_take_le _ _

theorem goFetch_snd_cases (fetch : Nat → Option (List Char)) (maxIps : Nat) :
    ∀ r a, (goFetch fetch maxIps a r).2 = []
      ∨ ∃ body, (goFetch fetch maxIps a r).2 = parseIps maxIps body := by
  intro r
  induction r with
  | zero => intro a; left; rfl
  | succ n ih =>
    intro a
    cases hf : fetch a with
    | some body => right; exact ⟨body, by simp [goFetch, hf]⟩
    | none =>
      by_cases hn : n = 0
      · left; simp [goFetch, hf, hn]
      · simpa [goFetch, hf, hn] using ih (a + 1)

theorem goFetch_events (fetch : Nat → Option (List Char)) (maxIps : Nat) :
    ∀ r a e, e ∈ (goFetch fetch maxIps a r).1 →
      e = Event.fetchGet ∨ e = Event.sleep RETRY_DELAY := by
  intro r
  induction r with
  | zero => intro a e he; simp [goFetch] at he
  | succ n ih =>
    intro a e he
    cases hf : fetch a with
    | some body =>
      simp [goFetch, hf] at he
      exact Or.inl he
    | none =>
      by_cases hn : n = 0
      · simp [goFetch, hf, hn] at he
        exact Or.inl he
      · simp [goFetch, hf, hn] at he
        rcases he with h | h | h
        · exact Or.inl h
        · exact Or.inr h
        · exact ih (a + 1) e h

theorem goFetch_countP_isCfCall (fetch : Nat → Option (List Char)) (maxIps r a : Nat) :
    ((goFetch fetch maxIps a r).1.countP isCfCall) = 0 := by
  rw [List.countP_eq_zero]
  intro e he
  rcases goFetch_events fetch maxIps r a e he with h | h <;> simp [h, isCfCall]

theorem goFetch_countP_isCreate (fetch : Nat → Option (List Char)) (maxIps r a : Nat) :
    ((goFetch fetch maxIps a r).1.countP isCreate) = 0 := by
  rw [List.countP_eq_zero]
  intro e he
  rcases goFetch_events fetch maxIps r a e he with h | h <;> simp [h, isCreate]

theorem goFetch_countP_isDelete (fetch : Nat → Option (List Char)) (maxIps r a : Nat) :
    ((goFetch fetch maxIps a r).1.countP isDelete) = 0 := by
  rw [List.countP_eq_zero]
  intro e he
  rcases goFetch_events fetch maxIps r a e he with h | h <;> simp [h, isDelete]

theorem deleteAll_eq_map (ok : Nat → Bool) :
    ∀ (rs : List DnsRecord) (i : Nat),
      deleteAll ok rs i = rs.map (fun r => Event.deleteReq r.id) := by
  intro rs
  induction rs with
  | nil => intro i; rfl
  | cons r rest ih => intro i; simp [deleteAll, delete_dns_record, ih (i + 1)]

theorem createAll_fst_eq_map (ok : Nat → Bool) (domain : Option String) :
    ∀ (ips : List Line) (i : Nat),
      (createAll ok domain ips i).1 = ips.map (fun ip =>
        Event.createReq { type := "A", name := domain, content := ip, ttl := 60, proxied := false }) := by
  intro ips
  induction ips with
  | nil => intro i; rfl
  | cons ip rest ih => intro i; simp [createAll, create_dns_record, ih (i + 1)]

theorem createAll_snd_eq_countP (ok : Nat → Bool) (domain : Option String) :
    ∀ (ips : List Line) (i : Nat),
      (createAll ok domain ips i).2 = (List.range' i ips.length).countP ok := by
  intro ips
  induction ips with
  | nil => intro i; rfl
  | cons ip rest ih =>
    intro i
    simp [createAll, create_dns_record, ih (i + 1), List.range'_succ, List.countP_cons]
    cases h : ok i <;> simp [h]
    omega

theorem main_eq_of_run (cfg : Config) (o : Oracle) (hcfg : cfgOk cfg = true)
    (hne : (get_preferred_ips o.fetch cfg.maxIps).2 ≠ []) :
    main cfg o
      = ((get_preferred_ips o.fetch cfg.maxIps).1 ++ [Event.listGet cfg.domain]
          ++ deleteAll o.deleteOk (listedRecords o.listOutcome) 0
          ++ (createAll o.createOk cfg.domain (get_preferred_ips o.fetch cfg.maxIps).2 0).1,
        some (createAll o.createOk cfg.domain (get_preferred_ips o.fetch cfg.maxIps).2 0).2) := by
  have hE : (get_preferred_ips o.fetch cfg.maxIps).2.isEmpty = false := by
    simp [List.isEmpty_iff, hne]
  simp [main, hcfg, hE, get_existing_dns_records]

theorem countP_isCreate_main (cfg : Config) (o : Oracle) (hcfg : cfgOk cfg = true)
    (hne : (get_preferred_ips o.fetch cfg.maxIps).2 ≠ []) :
    ((main cfg o).1.countP isCreate)
      = (get_preferred_ips o.fetch cfg.maxIps).2.length := by
  rw [main_eq_of_run cfg o hcfg hne]
  have h0 : ((get_preferred_ips o.fetch cfg.maxIps).1.countP isCreate) = 0 :=
    goFetch_countP_isCreate o.fetch cfg.maxIps RETRY_COUNT 0
  have h1 : (List.countP isCreate
      (deleteAll o.deleteOk (listedRecords o.listOutcome) 0)) = 0 := by
    rw [List.countP_eq_zero]
    intro a ha
    rw [deleteAll_eq_map] at ha
    rcases List.mem_map.mp ha with ⟨r, _, rfl⟩
    simp [isCreate]
  have h2 : (List.countP isCreate
        (createAll o.createOk cfg.domain (get_preferred_ips o.fetch cfg.maxIps).2 0).1)
      = (get_preferred_ips o.fetch cfg.maxIps).2.length := by
    rw [createAll_fst_eq_map, List.countP_map, List.countP_eq_length]
    intro a _
    simp [isCreate, Function.comp]
  simp only [List.countP_append, h0, h1, h2]
  simp [isCreate, List.countP_cons]

theorem countP_isDelete_main (cfg : Config) (o : Oracle) (hcfg : cfgOk cfg = true)
    (hne : (get_preferred_ips o.fetch cfg.maxIps).2 ≠ []) :
    ((main cfg o).1.countP isDelete) = (listedRecords o.listOutcome).length := by
  rw [main_eq_of_run cfg o hcfg hne]
  have h0 : ((get_preferred_ips o.fetch cfg.maxIps).1.countP isDelete) = 0 :=
    goFetch_countP_isDelete o.fetch cfg.maxIps RETRY_COUNT 0
  have h1 : (List.countP isDelete
        (deleteAll o.deleteOk (listedRecords o.listOutcome) 0))
      = (listedRecords o.listOutcome).length := by
    rw [deleteAll_eq_map, List.countP_map, List.countP_eq_length]
    intro a _
    simp [isDelete, Function.comp]
  have h2 : (List.countP isDelete
      (createAll o.createOk cfg.domain (get_preferred_ips o.fetch cfg.maxIps).2 0).1) = 0 := by
    rw [List.countP_eq_zero]
    intro a ha
    rw [createAll_fst_eq_map] at ha
    rcases List.mem_map.mp ha with ⟨ip, _, rfl⟩
    simp [isDelete]
  simp only [List.countP_append, h0, h1, h2]
  simp [isDelete, List.countP_cons]

theorem main_deleteOk_irrel (cfg : Config) (o : Oracle) (ok' : Nat → Bool) :
    main cfg o = main cfg { o with deleteOk := ok' } := by
  simp [main, deleteAll_eq_map]

theorem createReq_mem_createAll (ok : Nat → Bool) (dom : Option String) :
    ∀ (ips : List Line) (i : Nat) (d : CreateData),
      Event.createReq d ∈ (createAll ok dom ips i).1 →
      d.type = "A" ∧ d.name = dom ∧ d.ttl = 60 ∧ d.proxied = false ∧ d.content ∈ ips := by
  intro ips
  induction ips with
  | nil => intro i d h; simp [createAll] at h
  | cons ip rest ih =>
    intro i d h
    simp only [createAll, create_dns_record, List.cons_append, List.nil_append,
      List.mem_cons] at h
    rcases h with h | h
    · rcases Event.createReq.inj h with rfl
      simp
    · have := ih (i + 1) d h
      exact ⟨this.1, this.2.1, this.2.2.1, this.2.2.2.1, List.mem_cons_of_mem _ this.2.2.2.2⟩

/-! The claims. -/

/-- C1, as frozen: for every fetched source body, the parsed candidate list
equals the list of non-empty IP portions of the non-blank, non-comment
lines, in source order.  This is refuted by a body with six qualifying
lines: the parse loop stops after `MAX_IPS = 5` candidates. -/
theorem c1_counterexample : parseIps MAX_IPS bodySix ≠ specIpPortions bodySix := by
  decide

/-- C1, amended: the parsed candidate list is the list of non-empty IP
portions of the non-blank, non-comment lines, in source order, truncated
to the first `MAX_IPS` entries. -/
theorem c1_parse_equals_truncated_portions (body : List Char) :
    parseIps MAX_IPS body = (specIpPortions body).take MAX_IPS :=
  parseIps_eq_take MAX_IPS (by decide) body

/-- C2: when `main` reaches the creation step with `M` selected IPs, the
trace holds exactly `M` record-creation calls, and the reported success
count equals the number of those calls whose oracle outcome is success. -/
theorem c2_creation_calls_and_success_count (cfg : Config) (o : Oracle)
    (hcfg : cfgOk cfg = true)
    (hne : (get_preferred_ips o.fetch cfg.maxIps).2 ≠ []) :
    ((main cfg o).1.countP isCreate)
        = (get_preferred_ips o.fetch cfg.maxIps).2.length
    ∧ (main cfg o).2
        = some ((List.range (get_preferred_ips o.fetch cfg.maxIps).2.length).countP
            o.createOk) := by
  refine ⟨countP_isCreate_main cfg o hcfg hne, ?_⟩
  rw [main_eq_of_run cfg o hcfg hne]
  simp [createAll_snd_eq_countP, List.range_eq_range']

theorem c2_witness :
    ((main cfgW oracleW).1.countP isCreate)
        = (get_preferred_ips oracleW.fetch cfgW.maxIps).2.length
    ∧ (main cfgW oracleW).2
        = some ((List.range (get_preferred_ips oracleW.fetch cfgW.maxIps).2.length).countP
            oracleW.createOk) :=
  c2_creation_calls_and_success_count cfgW oracleW (by decide) (by decide)

/-- C3: when `main` reaches the deletion step with `N` listed records, the
trace holds exactly `N` record-deletion calls, and the whole run (trace
and report) is unchanged under any other deletion outcomes — so deletion
failures stop neither the remaining deletions nor the creation step,
which still issues one call per selected IP. -/
theorem c3_deletion_calls_failure_independent (cfg : Config) (o : Oracle)
    (hcfg : cfgOk cfg = true)
    (hne : (get_preferred_ips o.fetch cfg.maxIps).2 ≠ []) :
    ((main cfg o).1.countP isDelete) = (listedRecords o.listOutcome).length
    ∧ (∀ ok', main cfg o = main cfg { o with deleteOk := ok' })
    ∧ ((main cfg o).1.countP isCreate)
        = (get_preferred_ips o.fetch cfg.maxIps).2.length :=
  ⟨countP_isDelete_main cfg o hcfg hne,
   fun ok' => main_deleteOk_irrel cfg o ok',
   countP_isCreate_main cfg o hcfg hne⟩

theorem c3_witness :
    ((main cfgW oracleW).1.countP isDelete) = (listedRecords oracleW.listOutcome).length
    ∧ main cfgW oracleW = main cfgW { oracleW with deleteOk := allFalse }
    ∧ ((main cfgW oracleW).1.countP isCreate)
        = (get_preferred_ips oracleW.fetch cfgW.maxIps).2.length :=
  ⟨(c3_deletion_calls_failure_independent cfgW oracleW (by decide) (by decide)).1,
   (c3_deletion_calls_failure_independent cfgW oracleW (by decide) (by decide)).2.1 allFalse,
   (c3_deletion_calls_failure_independent cfgW oracleW (by decide) (by decide)).2.2⟩

/-- C4: when `get_preferred_ips` comes back empty, `main` stops right
after the fetch phase: no success report, the trace is exactly the fetch
trace, and it holds no call to the DNS provider (no list, delete or
create request). -/
theorem c4_empty_fetch_stops_run (cfg : Config) (o : Oracle)
    (hcfg : cfgOk cfg = true)
    (hips : (get_preferred_ips o.fetch cfg.maxIps).2 = []) :
    (main cfg o).2 = none
    ∧ (main cfg o).1 = (get_preferred_ips o.fetch cfg.maxIps).1
    ∧ ((main cfg o).1.countP isCfCall) = 0 := by
  have hmain : main cfg o = ((get_preferred_ips o.fetch cfg.maxIps).1, none) := by
    simp [main, hcfg, hips]
  refine ⟨by simp [hmain], by simp [hmain], ?_⟩
  rw [hmain]
  exact goFetch_countP_isCfCall o.fetch cfg.maxIps RETRY_COUNT 0

theorem c4_witness :
    (main cfgW oracleDown).2 = none
    ∧ (main cfgW oracleDown).1 = (get_preferred_ips oracleDown.fetch cfgW.maxIps).1
    ∧ ((main cfgW oracleDown).1.countP isCfCall) = 0 :=
  c4_empty_fetch_stops_run cfgW oracleDown (by decide) (by decide)

/-- C5: if any of the three required configuration values is missing (or
empty), `main` returns with an empty event trace: no HTTP call of any
kind is issued. -/
theorem c5_missing_config_no_calls (cfg : Config) (o : Oracle)
    (hcfg : cfgOk cfg = false) : main cfg o = ([], none) := by
  simp [main, hcfg]

theorem c5_witness : main cfgMissing oracleW = ([], none) :=
  c5_missing_config_no_calls cfgMissing oracleW (by decide)

/-- C6: for every source body the parsed candidate list has at most
`MAX_IPS` entries, and consequently `get_preferred_ips` never returns
more than `MAX_IPS` candidates, whatever the fetch outcomes. -/
theorem c6_selection_bounded :
    (∀ body, (parseIps MAX_IPS body).length ≤ MAX_IPS)
    ∧ (∀ fetch, ((get_preferred_ips fetch MAX_IPS).2).length ≤ MAX_IPS) := by
  refine ⟨parseIps_length_le, ?_⟩
  intro fetch
  rcases goFetch_snd_cases fetch MAX_IPS RETRY_COUNT 0 with h | ⟨body, h⟩
  · show ((goFetch fetch MAX_IPS 0 RETRY_COUNT).2).length ≤ MAX_IPS
    simp [h]
  · show ((goFetch fetch MAX_IPS 0 RETRY_COUNT).2).length ≤ MAX_IPS
    rw [h]
    exact parseIps_length_le body

/-- C7: the fetch is attempted up to `RETRY_COUNT = 3` times with a fixed
`RETRY_DELAY`-second sleep between attempts when a request exception
occurs; if every attempt fails the result is the empty list (after
exactly three GETs), and a successful fetch whose body parses to no
candidates also yields the empty list. -/
theorem c7_retry_and_empty_results (fetch : Nat → Option (List Char)) :
    ((∀ i, i < RETRY_COUNT → fetch i = none) →
        get_preferred_ips fetch MAX_IPS = (allFailTrace, []))
    ∧ (∀ k body, k < RETRY_COUNT → (∀ i, i < k → fetch i = none) →
        fetch k = some body → parseIps MAX_IPS body = [] →
        (get_preferred_ips fetch MAX_IPS).2 = []) := by
  constructor
  · intro h
    have h0 := h 0 (by decide)
    have h1 := h 1 (by decide)
    have h2 := h 2 (by decide)
    simp [get_preferred_ips, RETRY_COUNT, goFetch, h0, h1, h2, allFailTrace]
  · intro k body hk hlt hfk hp
    have hk3 : k < 3 := hk
    interval_cases k
    · simp [get_preferred_ips, RETRY_COUNT, goFetch, hfk, hp]
    · have h0 := hlt 0 (by decide)
      simp [get_preferred_ips, RETRY_COUNT, goFetch, h0, hfk, hp]
    · have h0 := hlt 0 (by decide)
      have h1 := hlt 1 (by decide)
      simp [get_preferred_ips, RETRY_COUNT, goFetch, h0, h1, hfk, hp]

theorem c7_witness :
    get_preferred_ips fetchNone MAX_IPS = (allFailTrace, [])
    ∧ (get_preferred_ips fetchCommentsOnly MAX_IPS).2 = [] :=
  ⟨(c7_retry_and_empty_results fetchNone).1 (fun _ _ => rfl),
   (c7_retry_and_empty_results fetchCommentsOnly).2 0 bodyComments (by decide)
     (fun i h => absurd h (Nat.not_lt_zero i)) rfl (by decide)⟩

/-- C8: every record-creation request in any `main` trace posts type
`"A"`, the configured domain as name, a TTL of 60 seconds, the proxy
flag off, and as content one of the selected IPs. -/
theorem c8_create_payload_shape (cfg : Config) (o : Oracle) (d : CreateData)
    (h : Event.createReq d ∈ (main cfg o).1) :
    d.type = "A" ∧ d.name = cfg.domain ∧ d.ttl = 60 ∧ d.proxied = false
    ∧ d.content ∈ (get_preferred_ips o.fetch cfg.maxIps).2 := by
  by_cases hcfg : cfgOk cfg = true
  · by_cases hne : (get_preferred_ips o.fetch cfg.maxIps).2 = []
    · have hE : (get_preferred_ips o.fetch cfg.maxIps).2.isEmpty = true := by
        simp [List.isEmpty_iff, hne]
      rw [show (main cfg o).1 = (get_preferred_ips o.fetch cfg.maxIps).1 by
        simp [main, hcfg, hE]] at h
      rcases goFetch_events o.fetch cfg.maxIps RETRY_COUNT 0 _ h with h' | h' <;>
        simp at h'
    · rw [main_eq_of_run cfg o hcfg hne] at h
      simp only [List.append_assoc, List.mem_append, List.mem_singleton] at h
      rcases h with h | h | h | h
      · rcases goFetch_events o.fetch cfg.maxIps RETRY_COUNT 0 _ h with h' | h' <;>
          simp at h'
      · simp at h
      · rw [deleteAll_eq_map] at h
        rcases List.mem_map.mp h with ⟨r, _, h'⟩
        simp at h'
      · exact createReq_mem_createAll o.createOk cfg.domain _ 0 d h
  · have hcfg' : cfgOk cfg = false := by
      cases hc : cfgOk cfg
      · rfl
      · exact absurd hc hcfg
    rw [show (main cfg o).1 = [] by simp [main, hcfg']] at h
    simp at h

theorem c8_witness :
    createDataW.type = "A" ∧ createDataW.name = cfgW.domain
    ∧ createDataW.ttl = 60 ∧ createDataW.proxied = false
    ∧ createDataW.content ∈ (get_preferred_ips oracleW.fetch cfgW.maxIps).2 :=
  c8_create_payload_shape cfgW oracleW createDataW (by decide)

/-- C9, as frozen: some environment setting of a selection-count override
makes the script select a number of IPs other than the default.  False:
`MAX_IPS` is a literal in the source and configuration intake never
consults the environment for it. -/
theorem c9_counterexample :
    ¬ ∃ env : String → Option String, (readConfig env).maxIps ≠ MAX_IPS :=
  fun ⟨_, h⟩ => h rfl

/-- C9, amended: the selection count is the built-in constant
`MAX_IPS = 5`; it is not read from the environment, and no environment
setting changes it. -/
theorem c9_selection_count_fixed :
    ∀ env : String → Option String, (readConfig env).maxIps = MAX_IPS ∧ MAX_IPS = 5 :=
  fun _ => ⟨rfl, rfl⟩

/-- C10: a fetch attempt that succeeds at the HTTP level but parses to no
candidates makes `get_preferred_ips` return the empty list at once: the
trace is a single GET, with no sleep and no retry. -/
theorem c10_empty_parse_single_get (fetch : Nat → Option (List Char))
    (body : List Char) (h0 : fetch 0 = some body)
    (hp : parseIps MAX_IPS body = []) :
    get_preferred_ips fetch MAX_IPS = ([Event.fetchGet], []) := by
  simp [get_preferred_ips, RETRY_COUNT, goFetch, h0, hp]

theorem c10_witness :
    get_preferred_ips fetchCommentsOnly MAX_IPS = ([Event.fetchGet], []) :=
  c10_empty_parse_single_get fetchCommentsOnly bodyComments rfl (by decide)

end UpdateIps
